import Mathlib

/-!
Verification of `start_server.py` (modeli-mundi-3d).

The script is a single straight-line function `main()`:
  1. `os.chdir` to the script directory (line 23);
  2. preflight: for each entry of `required_files = ['index.html', 'js/app.js']`
     append the missing ones to `missing_files` (lines 26-31); if any are
     missing, print the list and `sys.exit(1)` (lines 33-38);
  3. in a `try` block: construct `socketserver.TCPServer((HOST, PORT), handler)`
     (line 43, the bind), print a banner (lines 45-58), attempt
     `webbrowser.open(f"http://HOST:PORT/demo.html")` inside an inner
     `try/except Exception` (lines 61-65), then `httpd.serve_forever()` (line 68);
  4. handlers on the outer `try`: `KeyboardInterrupt` prints a message, calls
     `httpd.shutdown()` and `sys.exit(0)` (lines 70-73); `OSError` prints a
     port-in-use message when `e.errno == 48` else a generic message, then
     `sys.exit(1)` (lines 75-81); `Exception` prints a generic message and
     `sys.exit(1)` (lines 83-85).

We embed a run of `main()` as a function from an environment (which files
exist, how the bind / browser / serve loop turn out) to a trace of observable
events plus an exit status.  Python semantics embedded faithfully:

* an exception raised inside an `except` handler of a `try` statement is NOT
  caught by the sibling `except` clauses of the same statement, so the
  `UnboundLocalError` produced by `httpd.shutdown()` when `httpd` was never
  assigned propagates out of `main()` uncaught (Python then terminates with a
  traceback and a non-zero status, not through `sys.exit`);
* `webbrowser.open` signals "no browser" by RETURNING `False`; the inner
  `except Exception` only fires when it RAISES, so a `False` return prints no
  warning;
* `e.errno == 48` is a numeric comparison: 48 is `EADDRINUSE` on macOS/BSD
  only (on Linux `EADDRINUSE` is 98), so the code sees only the number, not
  the semantic condition.  `BindOutcome.osError` therefore carries both the
  numeric `errno` the OS reported and the semantic fact `addrInUse` of the
  environment; `run` reads only the number, as the code does.
-/

namespace StartServer

/-- `HOST = 'localhost'`, line 19. -/
def HOST : String := "localhost"

/-- `PORT = 8000`, line 18. -/
def PORT : Nat := 8000

/-- `required_files = ['index.html', 'js/app.js']`, line 26. -/
def requiredFiles : List String := ["index.html", "js/app.js"]

/-- `f"http://{HOST}:{PORT}/demo.html"`, the URL passed to `webbrowser.open`
on line 62. -/
def appUrl : String := "http://" ++ HOST ++ ":" ++ toString PORT ++ "/demo.html"

/-- `f"http://{HOST}:{PORT}/"`, the URL named in the manual-open hint on
line 65. -/
def rootUrl : String := "http://" ++ HOST ++ ":" ++ toString PORT ++ "/"

/-- `'='*50`, the separator line printed in the banner. -/
def sepLine : String := String.mk (List.replicate 50 (Char.ofNat 61))

/-- Observable events of one run of `main()`.  Each print constructor is one
specific `print(...)` statement of the source; constructors carry the parts of
the printed text that vary. -/
inductive Event where
  /-- `os.chdir(script_dir)`, line 23. -/
  | chdir (dir : String)
  /-- `print("❌ Error: Missing required files:")`, line 34. -/
  | printMissingHeader
  /-- `print(f"   - {file_path}")`, line 36, once per missing path. -/
  | printMissingEntry (path : String)
  /-- `print("\nPlease ensure all application files are present.")`, line 37. -/
  | printMissingFooter
  /-- the call `socketserver.TCPServer((HOST, PORT), handler)`, line 43:
  a bind on `(host, port)` is attempted. -/
  | bindAttempt (host : String) (port : Nat)
  /-- the `TCPServer` constructor returned: the listener is bound and ready
  to accept connections. -/
  | bound
  /-- one line of the startup banner, lines 45-58, with its exact text. -/
  | printBanner (s : String)
  /-- `webbrowser.open(...)`, line 62, with the URL passed. -/
  | browserAttempt (url : String)
  /-- `print(f"⚠️  Could not auto-open browser: {e}")`, line 64; `text` is
  `str(e)`. -/
  | printBrowserWarn (text : String)
  /-- `print(f"   Please manually open http://{HOST}:{PORT}/ in your browser")`,
  line 65. -/
  | printBrowserManual (url : String)
  /-- `httpd.serve_forever()`, line 68: the blocking serve loop is entered. -/
  | serve
  /-- `print(f"\n🛑 Server stopped by user")`, line 71. -/
  | printStopped
  /-- `httpd.shutdown()`, line 72: the serve loop is told to stop accepting
  connections. -/
  | shutdownCall
  /-- `print(f"❌ Error: Port {PORT} is already in use.")`, line 77. -/
  | printPortInUse (port : Nat)
  /-- `print(f"   Try using a different port or stop the other server.")`,
  line 78. -/
  | printPortInUseHint
  /-- `print(f"❌ Error starting server: {e}")`, line 80; `text` is `str(e)`. -/
  | printBindError (text : String)
  /-- `print(f"❌ Unexpected error: {e}")`, line 84; `text` is `str(e)`. -/
  | printUnexpected (text : String)
  deriving DecidableEq, Repr

/-- How the process ends: through `sys.exit(n)` (or normal return), or by an
exception propagating out of `main()` uncaught — Python then prints a
traceback and exits with a non-zero status of its own. -/
inductive ExitStatus where
  | code (n : Nat)
  | uncaught (exnName : String)
  deriving DecidableEq, Repr

/-- Outcome of the `TCPServer((HOST, PORT), handler)` construction, line 43. -/
inductive BindOutcome where
  /-- the bind succeeded and `httpd` was assigned. -/
  | ok
  /-- a `KeyboardInterrupt` arrived after the `try` was entered but before
  `httpd` was assigned. -/
  | keyboardInterrupt
  /-- the constructor raised `OSError`; `errno` is the numeric code the OS
  reported, `text` is `str(e)`, and `addrInUse` records the semantic fact
  (environment knowledge, invisible to the code) that the cause was another
  listener on the same address. -/
  | osError (errno : Int) (text : String) (addrInUse : Bool)
  /-- the constructor raised some other `Exception`; `text` is `str(e)`. -/
  | otherExn (text : String)
  deriving DecidableEq, Repr

/-- Outcome of `webbrowser.open(...)`, line 62. -/
inductive BrowserOutcome where
  /-- returned `True`: a browser was launched. -/
  | opened
  /-- returned `False`: no browser could be launched, no exception raised. -/
  | returnedFalse
  /-- raised an exception with `str(e) = text`. -/
  | raised (text : String)
  deriving DecidableEq, Repr

/-- Outcome of `httpd.serve_forever()`, line 68 (it blocks until an exception
arrives). -/
inductive ServeOutcome where
  /-- a `KeyboardInterrupt` arrived while serving. -/
  | interrupt
  /-- an `OSError` escaped the serve loop (handled by the same line 75-81
  clause as a bind-time `OSError`). -/
  | osError (errno : Int) (text : String)
  /-- some other `Exception` escaped the serve loop. -/
  | otherExn (text : String)
  deriving DecidableEq, Repr

/-- The environment of one run: everything outside the code's control. -/
structure Env where
  /-- `Path(__file__).parent`, the directory `main` chdirs to and serves from. -/
  scriptDir : String
  /-- `Path(p).exists()` for each relative path `p` (line 30). -/
  fileExists : String → Bool
  bindOutcome : BindOutcome
  browserOutcome : BrowserOutcome
  serveOutcome : ServeOutcome

/-- The loop of lines 29-31: walk `required` in order, appending each path
whose `fileExists` check fails to the result, preserving input order. -/
def computeMissing (fileExists : String → Bool) : List String → List String
  | [] => []
  | p :: rest =>
      if fileExists p then computeMissing fileExists rest
      else p :: computeMissing fileExists rest

/-- The banner block, lines 45-58, one event per `print`. -/
def bannerEvents (dir : String) : List Event :=
  [Event.printBanner "🌌 Historical Universe Models - 3D Explorer",
   Event.printBanner sepLine,
   Event.printBanner ("🚀 Server starting on http://" ++ HOST ++ ":" ++ toString PORT),
   Event.printBanner ("📂 Serving from: " ++ dir),
   Event.printBanner sepLine,
   Event.printBanner "",
   Event.printBanner ("🎯 Main Application: http://" ++ HOST ++ ":" ++ toString PORT ++ "/"),
   Event.printBanner ("📋 Demo Page: http://" ++ HOST ++ ":" ++ toString PORT ++ "/demo.html"),
   Event.printBanner "",
   Event.printBanner "💡 The application will open automatically in your browser.",
   Event.printBanner "   If it doesn\x27t, copy and paste the URL above.",
   Event.printBanner "",
   Event.printBanner "⏹️  Press Ctrl+C to stop the server",
   Event.printBanner sepLine]

/-- The inner `try` of lines 61-65: the open is always attempted at `appUrl`;
only a RAISED exception produces the two warning prints — a `False` return is
ignored because the except clause never fires. -/
def browserEvents : BrowserOutcome → List Event
  | BrowserOutcome.opened => [Event.browserAttempt appUrl]
  | BrowserOutcome.returnedFalse => [Event.browserAttempt appUrl]
  | BrowserOutcome.raised text =>
      [Event.browserAttempt appUrl,
       Event.printBrowserWarn text,
       Event.printBrowserManual rootUrl]

/-- The `except OSError` clause, lines 75-81: the distinct port-in-use message
is printed exactly when the numeric `errno` equals 48, otherwise the generic
message with `str(e)`. -/
def osErrorEvents (errno : Int) (text : String) : List Event :=
  if errno = 48 then
    [Event.printPortInUse PORT, Event.printPortInUseHint]
  else
    [Event.printBindError text]

/-- What happens after `serve_forever()` is entered, per outcome; pairs the
handler's events with the exit status.  On `KeyboardInterrupt` while serving,
`httpd` is bound, so lines 71-73 run to `sys.exit(0)`. -/
def serveTail : ServeOutcome → List Event × ExitStatus
  | ServeOutcome.interrupt =>
      ([Event.printStopped, Event.shutdownCall], ExitStatus.code 0)
  | ServeOutcome.osError errno text => (osErrorEvents errno text, ExitStatus.code 1)
  | ServeOutcome.otherExn text => ([Event.printUnexpected text], ExitStatus.code 1)

/-- One run of `main()`: the trace of observable events and the exit status.
When the interrupt arrives before `httpd` is assigned, the handler prints
line 71 and then `httpd.shutdown()` raises `UnboundLocalError`, which no
sibling `except` clause of the same `try` catches, so it leaves `main()`
uncaught. -/
def run (env : Env) : List Event × ExitStatus :=
  let missing := computeMissing env.fileExists requiredFiles
  if missing.isEmpty then
    match env.bindOutcome with
    | BindOutcome.ok =>
        let tail := serveTail env.serveOutcome
        ([Event.chdir env.scriptDir, Event.bindAttempt HOST PORT, Event.bound]
           ++ bannerEvents env.scriptDir
           ++ browserEvents env.browserOutcome
           ++ [Event.serve] ++ tail.1,
         tail.2)
    | BindOutcome.keyboardInterrupt =>
        ([Event.chdir env.scriptDir, Event.bindAttempt HOST PORT,
          Event.printStopped],
         ExitStatus.uncaught "UnboundLocalError")
    | BindOutcome.osError errno text _ =>
        ([Event.chdir env.scriptDir, Event.bindAttempt HOST PORT]
           ++ osErrorEvents errno text,
         ExitStatus.code 1)
    | BindOutcome.otherExn text =>
        ([Event.chdir env.scriptDir, Event.bindAttempt HOST PORT,
          Event.printUnexpected text],
         ExitStatus.code 1)
  else
    ([Event.chdir env.scriptDir, Event.printMissingHeader]
       ++ missing.map Event.printMissingEntry
       ++ [Event.printMissingFooter],
     ExitStatus.code 1)

/-- `true` iff the trace contains a `TCPServer` construction attempt or a
successful bind: "a listener was (ever) bound or tried". -/
def bindAttempted (es : List Event) : Bool :=
  es.any fun e =>
    match e with
    | Event.bindAttempt _ _ => true
    | Event.bound => true
    | _ => false

/-- `true` iff the trace contains a `webbrowser.open` attempt. -/
def browserAttempted (es : List Event) : Bool :=
  es.any fun e =>
    match e with
    | Event.browserAttempt _ => true
    | _ => false

/-- `true` iff the trace contains one of the four fatal-error prints
(lines 34, 77, 80, 84). -/
def errorReported (es : List Event) : Bool :=
  es.any fun e =>
    match e with
    | Event.printMissingHeader => true
    | Event.printPortInUse _ => true
    | Event.printBindError _ => true
    | Event.printUnexpected _ => true
    | _ => false

/-! Concrete environments used to instantiate the theorems. -/

/-- All files present, bind succeeds, browser opens, interrupt while serving:
the fully successful run of the concrete scenario. -/
def envOk : Env :=
  { scriptDir := "/repo"
    fileExists := fun _ => true
    bindOutcome := BindOutcome.ok
    browserOutcome := BrowserOutcome.opened
    serveOutcome := ServeOutcome.interrupt }

/-- Port 8000 already occupied on a macOS/BSD host: the OS reports
`errno 48`. -/
def envInUse48 : Env :=
  { envOk with
    bindOutcome := BindOutcome.osError 48 "[Errno 48] Address already in use" true }

/-- Port 8000 already occupied on a Linux host: the OS reports `errno 98`. -/
def envInUse98 : Env :=
  { envOk with
    bindOutcome := BindOutcome.osError 98 "[Errno 98] Address already in use" true }

/-- `js/app.js` absent, everything else present. -/
def envMissingJs : Env :=
  { envOk with fileExists := fun p => p == "index.html" }

/-- A `KeyboardInterrupt` arrives after the `try` is entered but before
`httpd` is assigned. -/
def envInterruptAtBind : Env :=
  { envOk with bindOutcome := BindOutcome.keyboardInterrupt }

/-- The browser launch raises an exception. -/
def envBrowserRaises : Env :=
  { envOk with browserOutcome := BrowserOutcome.raised "could not locate runnable browser" }

/-- `webbrowser.open` returns `False` (no browser available), raising
nothing. -/
def envBrowserFalse : Env :=
  { envOk with browserOutcome := BrowserOutcome.returnedFalse }

/-- The bind raises a non-`OSError` exception. -/
def envBindExn : Env :=
  { envOk with bindOutcome := BindOutcome.otherExn "boom" }

/-- Every file except `demo.html` exists. -/
def envNoDemo : Env :=
  { envOk with fileExists := fun p => !(p == "demo.html") }

/-! Helper lemmas shared by several claim theorems. -/

/-- The append-in-a-loop of lines 29-31 computes the filter of the input list
by non-existence, preserving input order. -/
theorem computeMissing_eq_filter (fe : String → Bool) (req : List String) :
    computeMissing fe req = req.filter fun p => !(fe p) := by
  induction req with
  | nil => rfl
  | cons p rest ih => by_cases h : fe p <;> simp [computeMissing, h, ih]

/-- When every required file exists, the missing list is empty. -/
theorem computeMissing_eq_nil (fe : String → Bool) (req : List String)
    (h : ∀ p ∈ req, fe p = true) : computeMissing fe req = [] := by
  rw [computeMissing_eq_filter]
  simp only [List.filter_eq_nil_iff]
  intro p hp
  simp [h p hp]

/-- The `except OSError` clause never attempts a browser open. -/
theorem browserAttempted_osErrorEvents (errno : Int) (text : String) :
    browserAttempted (osErrorEvents errno text) = false := by
  by_cases h : errno = 48 <;> simp [osErrorEvents, h, browserAttempted]

/-- Nothing after `serve_forever()` is entered attempts a browser open. -/
theorem browserAttempted_serveTail (sv : ServeOutcome) :
    browserAttempted (serveTail sv).1 = false := by
  cases sv with
  | interrupt => rfl
  | osError errno text => exact browserAttempted_osErrorEvents errno text
  | otherExn text => rfl

/-- `browserAttempted` distributes over trace concatenation. -/
theorem browserAttempted_append (a b : List Event) :
    browserAttempted (a ++ b) = (browserAttempted a || browserAttempted b) := by
  simp [browserAttempted, List.any_append]

/-- Nothing after `serve_forever()` is entered prints the browser warning of
line 64. -/
theorem warn_not_in_serveTail (t : String) (sv : ServeOutcome) :
    Event.printBrowserWarn t ∉ (serveTail sv).1 := by
  cases sv with
  | interrupt => simp [serveTail]
  | osError errno text =>
      by_cases h : errno = 48 <;> simp [serveTail, osErrorEvents, h]
  | otherExn text => simp [serveTail]

/-- C1: the source detects "address already in use" by the numeric test
`e.errno == 48`.  48 is `EADDRINUSE` on macOS/BSD only; on Linux the same
condition surfaces as `errno 98`.  With the port genuinely occupied
(`addrInUse = true` in both environments): under `errno 48` the distinct
port-in-use message naming port 8000 and its guidance line are printed, but
under `errno 98` they are not — the generic "Error starting server" message
is printed instead.  In both runs the exit status is 1 (non-zero) and no
browser-open attempt occurs, so only the classification part of the claim
fails, and only off macOS/BSD. -/
theorem addrInUse_detection :
    Event.printPortInUse PORT ∈ (run envInUse48).1 ∧
    Event.printPortInUseHint ∈ (run envInUse48).1 ∧
    (run envInUse48).2 = ExitStatus.code 1 ∧
    browserAttempted (run envInUse48).1 = false ∧
    envInUse98.bindOutcome = BindOutcome.osError 98 "[Errno 98] Address already in use" true ∧
    Event.printPortInUse PORT ∉ (run envInUse98).1 ∧
    Event.printBindError "[Errno 98] Address already in use" ∈ (run envInUse98).1 ∧
    (run envInUse98).2 = ExitStatus.code 1 ∧
    browserAttempted (run envInUse98).1 = false := by
  decide

/-- C2: for every run reaching the serving state (preflight clean, bind
succeeded) in which the interrupt arrives while serving, the handler prints
the stop message, calls `httpd.shutdown()` — the serve loop stops accepting
connections — and the process exits through `sys.exit(0)` with status 0,
releasing the bound port as it terminates. -/
theorem interrupt_while_serving_clean_exit (env : Env)
    (hm : computeMissing env.fileExists requiredFiles = [])
    (hb : env.bindOutcome = BindOutcome.ok)
    (hs : env.serveOutcome = ServeOutcome.interrupt) :
    (run env).2 = ExitStatus.code 0 ∧
    Event.printStopped ∈ (run env).1 ∧
    Event.shutdownCall ∈ (run env).1 := by
  simp [run, hm, hb, hs, serveTail]

theorem interrupt_while_serving_clean_exit_witness :
    (run envOk).2 = ExitStatus.code 0 ∧
    Event.printStopped ∈ (run envOk).1 ∧
    Event.shutdownCall ∈ (run envOk).1 :=
  interrupt_while_serving_clean_exit envOk (by decide) rfl rfl

/-- C8: if the `KeyboardInterrupt` arrives after the `try` block is entered
but before `httpd` is assigned, the handler prints the stop message and then
`httpd.shutdown()` raises `UnboundLocalError`, which no sibling `except`
clause catches; the exception leaves `main()` uncaught and the process does
not exit with status 0 on that path. -/
theorem interrupt_before_bind_unbound_local (env : Env)
    (hm : computeMissing env.fileExists requiredFiles = [])
    (hb : env.bindOutcome = BindOutcome.keyboardInterrupt) :
    (run env).1 = [Event.chdir env.scriptDir, Event.bindAttempt HOST PORT,
      Event.printStopped] ∧
    (run env).2 = ExitStatus.uncaught "UnboundLocalError" ∧
    (run env).2 ≠ ExitStatus.code 0 := by
  simp [run, hm, hb]

theorem interrupt_before_bind_unbound_local_witness :
    (run envInterruptAtBind).1 = [Event.chdir "/repo",
      Event.bindAttempt HOST PORT, Event.printStopped] ∧
    (run envInterruptAtBind).2 = ExitStatus.uncaught "UnboundLocalError" ∧
    (run envInterruptAtBind).2 ≠ ExitStatus.code 0 :=
  interrupt_before_bind_unbound_local envInterruptAtBind (by decide) rfl

/-- C9: the preflight list is exactly `['index.html', 'js/app.js']` and does
not contain `demo.html`, yet the browser is pointed at
`http://localhost:8000/demo.html`; in the concrete run where every file but
`demo.html` exists, preflight passes and the browser-open attempt still
targets the never-verified demo page. -/
theorem demo_page_not_prechecked :
    requiredFiles = ["index.html", "js/app.js"] ∧
    "demo.html" ∉ requiredFiles ∧
    appUrl = "http://localhost:8000/demo.html" ∧
    envNoDemo.fileExists "demo.html" = false ∧
    Event.browserAttempt appUrl ∈ (run envNoDemo).1 := by
  decide

/-- C3: the loop of lines 29-31 returns exactly the absent paths in input
order (for every required list and existence oracle), and for any run of
`main()` whose missing list is nonempty, the trace is precisely the header,
one print per missing path in order, and the footer, the exit status is 1,
and no listener is ever attempted or bound. -/
theorem preflight_missing_exact :
    (∀ (fe : String → Bool) (req : List String),
       computeMissing fe req = req.filter fun p => !(fe p)) ∧
    (∀ env : Env, computeMissing env.fileExists requiredFiles ≠ [] →
       (run env).2 = ExitStatus.code 1 ∧
       (run env).1 = [Event.chdir env.scriptDir, Event.printMissingHeader]
          ++ (computeMissing env.fileExists requiredFiles).map Event.printMissingEntry
          ++ [Event.printMissingFooter] ∧
       bindAttempted (run env).1 = false) := by
  refine ⟨computeMissing_eq_filter, ?_⟩
  intro env h
  have hne : (computeMissing env.fileExists requiredFiles).isEmpty = false := by
    cases hmiss : computeMissing env.fileExists requiredFiles with
    | nil => exact absurd hmiss h
    | cons a l => rfl
  refine ⟨by simp [run, hne], by simp [run, hne], ?_⟩
  simp only [run, hne, Bool.false_eq_true, if_false]
  simp [bindAttempted, List.any_map, Function.comp]

theorem preflight_missing_exact_witness :
    (run envMissingJs).2 = ExitStatus.code 1 ∧
    (run envMissingJs).1 = [Event.chdir "/repo", Event.printMissingHeader,
      Event.printMissingEntry "js/app.js", Event.printMissingFooter] ∧
    bindAttempted (run envMissingJs).1 = false := by
  have h := preflight_missing_exact.2 envMissingJs (by decide)
  exact ⟨h.1, by rw [h.2.1]; rfl, h.2.2⟩

/-- C4: when every required file exists the loop of lines 29-31 returns no
missing entries (for every required list and existence oracle), and any run
of `main()` with all required files present passes preflight and proceeds to
the bind of line 43 without printing the missing-files error or exiting
there. -/
theorem preflight_all_present :
    (∀ (fe : String → Bool) (req : List String),
       (∀ p ∈ req, fe p = true) → computeMissing fe req = []) ∧
    (∀ env : Env, (∀ p ∈ requiredFiles, env.fileExists p = true) →
       computeMissing env.fileExists requiredFiles = [] ∧
       Event.bindAttempt HOST PORT ∈ (run env).1 ∧
       Event.printMissingHeader ∉ (run env).1) := by
  refine ⟨computeMissing_eq_nil, ?_⟩
  intro env hall
  have hm : computeMissing env.fileExists requiredFiles = [] :=
    computeMissing_eq_nil env.fileExists requiredFiles hall
  refine ⟨hm, ?_, ?_⟩
  · rcases env with ⟨d, fe, b, br, sv⟩
    cases b <;> simp [run, hm]
  · rcases env with ⟨d, fe, b, br, sv⟩
    cases b <;> cases br <;> cases sv <;>
      simp [run, hm, bannerEvents, browserEvents, serveTail, osErrorEvents] <;>
      split <;> simp

theorem preflight_all_present_witness :
    computeMissing envOk.fileExists requiredFiles = [] ∧
    Event.bindAttempt HOST PORT ∈ (run envOk).1 ∧
    Event.printMissingHeader ∉ (run envOk).1 :=
  preflight_all_present.2 envOk (by decide)

/-- C5: when the browser launch raises, the inner `except` of lines 63-65
catches it, prints the warning with `str(e)` and the manual-open hint naming
the root URL, and the run still reaches `serve_forever()` (the serve event
occurs after the warning): browser failure is never fatal. -/
theorem browser_failure_nonfatal (env : Env) (text : String)
    (hm : computeMissing env.fileExists requiredFiles = [])
    (hb : env.bindOutcome = BindOutcome.ok)
    (hbr : env.browserOutcome = BrowserOutcome.raised text) :
    Event.printBrowserWarn text ∈ (run env).1 ∧
    Event.printBrowserManual rootUrl ∈ (run env).1 ∧
    ∃ pre post, (run env).1 = pre ++ [Event.serve] ++ post ∧
      Event.printBrowserWarn text ∈ pre := by
  refine ⟨by simp [run, hm, hb, hbr, browserEvents],
          by simp [run, hm, hb, hbr, browserEvents], ?_⟩
  refine ⟨[Event.chdir env.scriptDir, Event.bindAttempt HOST PORT, Event.bound]
            ++ bannerEvents env.scriptDir
            ++ browserEvents (BrowserOutcome.raised text),
          (serveTail env.serveOutcome).1, ?_, ?_⟩
  · simp [run, hm, hb, hbr]
  · simp [browserEvents]

theorem browser_failure_nonfatal_witness :
    Event.printBrowserWarn "could not locate runnable browser" ∈ (run envBrowserRaises).1 ∧
    Event.printBrowserManual rootUrl ∈ (run envBrowserRaises).1 ∧
    ∃ pre post, (run envBrowserRaises).1 = pre ++ [Event.serve] ++ post ∧
      Event.printBrowserWarn "could not locate runnable browser" ∈ pre :=
  browser_failure_nonfatal envBrowserRaises "could not locate runnable browser"
    (by decide) rfl rfl

/-- C6 counterexample: in the run where the interrupt arrives before `httpd`
is assigned, `main()` ends with an uncaught `UnboundLocalError` — it
propagates past the process boundary with no error message printed and no
`sys.exit` — so "every fatal condition is converted to a printed message plus
an exit code and nothing propagates" is false as stated. -/
theorem uncaught_interrupt_escapes :
    (run envInterruptAtBind).2 = ExitStatus.uncaught "UnboundLocalError" ∧
    errorReported (run envInterruptAtBind).1 = false := by
  decide

/-- C6 amended: in every run whose interrupt does not arrive in the window
between entering the `try` and the assignment of `httpd`, `main()` terminates
through `sys.exit`: with code 0 on a clean interrupt, or with code 1 plus one
of the four error prints on every fatal path; nothing propagates uncaught. -/
theorem fatal_errors_contained_amended (env : Env)
    (h : env.bindOutcome ≠ BindOutcome.keyboardInterrupt) :
    ∃ n, (run env).2 = ExitStatus.code n ∧
      (n = 0 ∨ (n = 1 ∧ errorReported (run env).1 = true)) := by
  rcases env with ⟨d, fe, b, br, sv⟩
  by_cases hm : (computeMissing fe requiredFiles).isEmpty
  · cases b with
    | ok =>
        cases sv with
        | interrupt => exact ⟨0, by simp [run, hm, serveTail], Or.inl rfl⟩
        | osError errno text =>
            refine ⟨1, by simp [run, hm, serveTail], Or.inr ⟨rfl, ?_⟩⟩
            by_cases he : errno = 48 <;>
              simp [run, hm, serveTail, osErrorEvents, he, errorReported,
                bannerEvents, browserEvents]
        | otherExn text =>
            refine ⟨1, by simp [run, hm, serveTail], Or.inr ⟨rfl, ?_⟩⟩
            simp [run, hm, serveTail, errorReported, bannerEvents, browserEvents]
    | keyboardInterrupt => exact absurd rfl h
    | osError errno text inUse =>
        refine ⟨1, by simp [run, hm], Or.inr ⟨rfl, ?_⟩⟩
        by_cases he : errno = 48 <;>
          simp [run, hm, osErrorEvents, he, errorReported]
    | otherExn text =>
        refine ⟨1, by simp [run, hm], Or.inr ⟨rfl, ?_⟩⟩
        simp [run, hm, errorReported]
  · refine ⟨1, ?_, Or.inr ⟨rfl, ?_⟩⟩
    · simp [run, hm]
    · simp [run, hm, errorReported]

theorem fatal_errors_contained_amended_witness :
    ∃ n, (run envBindExn).2 = ExitStatus.code n ∧
      (n = 0 ∨ (n = 1 ∧ errorReported (run envBindExn).1 = true)) :=
  fatal_errors_contained_amended envBindExn (by decide)

/-- C7: in every run that reaches a successful bind, the browser-open attempt
targets exactly `http://localhost:8000/demo.html`, and the trace splits as
`pre ++ [browserAttempt] ++ post` where the bound event is in `pre`, the
serve event is in `post`, no other browser attempt exists, and the serve
loop has not started before the attempt. -/
theorem browser_after_bound_before_serve (env : Env)
    (hm : computeMissing env.fileExists requiredFiles = [])
    (hb : env.bindOutcome = BindOutcome.ok) :
    appUrl = "http://localhost:8000/demo.html" ∧
    ∃ pre post, (run env).1 = pre ++ [Event.browserAttempt appUrl] ++ post ∧
      Event.bound ∈ pre ∧ Event.serve ∈ post ∧
      browserAttempted pre = false ∧ Event.serve ∉ pre ∧
      browserAttempted post = false := by
  refine ⟨by decide, ?_⟩
  have hpre : browserAttempted ([Event.chdir env.scriptDir,
      Event.bindAttempt HOST PORT, Event.bound] ++ bannerEvents env.scriptDir) = false := by
    simp [browserAttempted, bannerEvents]
  cases hbr : env.browserOutcome with
  | opened =>
      refine ⟨[Event.chdir env.scriptDir, Event.bindAttempt HOST PORT, Event.bound]
          ++ bannerEvents env.scriptDir,
        [Event.serve] ++ (serveTail env.serveOutcome).1,
        by simp [run, hm, hb, hbr, browserEvents], by simp,
        by simp, hpre, by simp [bannerEvents], ?_⟩
      simp only [browserAttempted_append, browserAttempted_serveTail]
      simp [browserAttempted]
  | returnedFalse =>
      refine ⟨[Event.chdir env.scriptDir, Event.bindAttempt HOST PORT, Event.bound]
          ++ bannerEvents env.scriptDir,
        [Event.serve] ++ (serveTail env.serveOutcome).1,
        by simp [run, hm, hb, hbr, browserEvents], by simp,
        by simp, hpre, by simp [bannerEvents], ?_⟩
      simp only [browserAttempted_append, browserAttempted_serveTail]
      simp [browserAttempted]
  | raised text =>
      refine ⟨[Event.chdir env.scriptDir, Event.bindAttempt HOST PORT, Event.bound]
          ++ bannerEvents env.scriptDir,
        [Event.printBrowserWarn text, Event.printBrowserManual rootUrl,
          Event.serve] ++ (serveTail env.serveOutcome).1,
        by simp [run, hm, hb, hbr, browserEvents], by simp,
        by simp, hpre, by simp [bannerEvents], ?_⟩
      simp only [browserAttempted_append, browserAttempted_serveTail]
      simp [browserAttempted]

theorem browser_after_bound_before_serve_witness :
    appUrl = "http://localhost:8000/demo.html" ∧
    ∃ pre post, (run envOk).1 = pre ++ [Event.browserAttempt appUrl] ++ post ∧
      Event.bound ∈ pre ∧ Event.serve ∈ post ∧
      browserAttempted pre = false ∧ Event.serve ∉ pre ∧
      browserAttempted post = false :=
  browser_after_bound_before_serve envOk (by decide) rfl

/-- C10: when `webbrowser.open` returns `False` instead of raising, the inner
`except Exception` never fires: no browser warning of any text is printed,
the run still reaches `serve_forever()`, and the whole run (trace and exit)
is identical to the one where the open succeeded. -/
theorem browser_false_return_silent (env : Env)
    (hm : computeMissing env.fileExists requiredFiles = [])
    (hb : env.bindOutcome = BindOutcome.ok)
    (hbr : env.browserOutcome = BrowserOutcome.returnedFalse) :
    (∀ t, Event.printBrowserWarn t ∉ (run env).1) ∧
    Event.serve ∈ (run env).1 ∧
    run env = run { env with browserOutcome := BrowserOutcome.opened } := by
  refine ⟨?_, ?_, ?_⟩
  · intro t
    have hsv := warn_not_in_serveTail t env.serveOutcome
    simp [run, hm, hb, hbr, browserEvents, bannerEvents]
    simpa using hsv
  · simp [run, hm, hb, hbr, browserEvents]
  · simp [run, hm, hb, hbr, browserEvents]

theorem browser_false_return_silent_witness :
    Event.printBrowserWarn "no runnable browser" ∉ (run envBrowserFalse).1 ∧
    Event.serve ∈ (run envBrowserFalse).1 ∧
    run envBrowserFalse
      = run { envBrowserFalse with browserOutcome := BrowserOutcome.opened } := by
  have h := browser_false_return_silent envBrowserFalse (by decide) rfl rfl
  exact ⟨h.1 "no runnable browser", h.2.1, h.2.2⟩

end StartServer
